import Mathlib

/-!
Verification development for the sciwing/parsect text-classification
pipeline.  The definitions below are shallow embeddings of:

* `src/sciwing/engine/engine.py`        — training engine (epoch loop,
  checkpointing, best-model tracking);
* `src/parsect/datasets/parsect_dataset.py` — dataset (splits, label
  mapping, numericalized items);
* `src/parsect/clients/parsect_inference.py` — inference runner.

Collaborator modules that are not part of the three source files
(`Vocab`, `Numericalizer`, `pack_to_length`, `WordTokenizer`,
`LossMeter`, the metric calculators) are modelled from the
specification; each such definition is marked `Modelled from the spec:`
in its doc comment.  Python floats are modelled as rationals (`ℚ`), with
`np.inf` as the top element of `WithTop ℚ`.
-/

namespace Engine

/-- The three values of `track_for_best` handled by the engine
(`engine.py`, `set_best_track_value`). -/
inductive TrackMode where
  | loss
  | macro_fscore
  | micro_fscore
deriving DecidableEq, Repr

/-- The engine's `best_track_value`: a float, where `np.inf` (the
initial value in `loss` mode) is `⊤`. -/
abbrev BestVal := WithTop ℚ

/-- Python `Engine.is_best_lower`: `current_best < self.best_track_value`
(`engine.py` lines 179-180). -/
def is_best_lower (best_track_value : BestVal) (current_best : ℚ) : Bool :=
  decide ((current_best : BestVal) < best_track_value)

/-- Python `Engine.is_best_higher`: `current_best >= self.best_track_value`
(`engine.py` lines 182-183).  Note: greater-or-equal, not strict. -/
def is_best_higher (best_track_value : BestVal) (current_best : ℚ) : Bool :=
  decide (best_track_value ≤ (current_best : BestVal))

/-- Python `Engine.set_best_track_value` (`engine.py` lines 185-191): with
`current_best = None` it installs the initial value (`np.inf` for loss,
`0` for the f-scores); otherwise it installs `current_best`. -/
def set_best_track_value (track_for_best : TrackMode) (current_best : Option ℚ) :
    BestVal :=
  match track_for_best, current_best with
  | .loss, none => ⊤
  | .macro_fscore, none => (0 : ℚ)
  | .micro_fscore, none => (0 : ℚ)
  | _, some c => (c : ℚ)

/-- A checkpoint as written by `torch.save` in `train_epoch_end` and
`validation_epoch_end`: exactly the epoch number, the optimizer state,
the model state, and the average loss.  `O` and `M` abstract the
optimizer and model state dictionaries. -/
structure Checkpoint (O M : Type) where
  epoch_num : ℕ
  optimizer_state : O
  model_state : M
  loss : ℚ
deriving DecidableEq, Repr

/-- The checkpoint-saving tail of `Engine.train_epoch_end` (`engine.py`
lines 283-293): after epoch `epoch_num` (0-based), if
`(epoch_num + 1) % save_every == 0` the checkpoint is written to
`model_epoch_{epoch_num+1}.pt`; otherwise nothing is written.  Returns
the written file name and checkpoint, if any. -/
def train_epoch_end_save (O M : Type) (save_every : ℕ) (epoch_num : ℕ)
    (average_loss : ℚ) (optimizer_state : O) (model_state : M) :
    Option (String × Checkpoint O M) :=
  if (epoch_num + 1) % save_every = 0 then
    some ("model_epoch_" ++ toString (epoch_num + 1) ++ ".pt",
      ⟨epoch_num, optimizer_state, model_state, average_loss⟩)
  else
    none

/-- The best-tracking tail of `Engine.validation_epoch_end` (`engine.py`
lines 357-382): computes `value_tracked` and `is_best` according to
`track_for_best`, and when `is_best` holds updates `best_track_value`
and writes the checkpoint to `best_model.pt`.  Returns the written file
and checkpoint (if any) together with the new `best_track_value`. -/
def validation_epoch_end (O M : Type) (track_for_best : TrackMode)
    (best_track_value : BestVal) (epoch_num : ℕ) (average_loss : ℚ)
    (metric_fscore : ℚ) (optimizer_state : O) (model_state : M) :
    Option (String × Checkpoint O M) × BestVal :=
  let value_tracked : ℚ :=
    match track_for_best with
    | .loss => average_loss
    | .macro_fscore => metric_fscore
    | .micro_fscore => metric_fscore
  let is_best : Bool :=
    match track_for_best with
    | .loss => is_best_lower best_track_value average_loss
    | .macro_fscore => is_best_higher best_track_value value_tracked
    | .micro_fscore => is_best_higher best_track_value value_tracked
  if is_best then
    (some ("best_model.pt", ⟨epoch_num, optimizer_state, model_state, average_loss⟩),
      set_best_track_value track_for_best (some value_tracked))
  else
    (none, best_track_value)

/-- Observable actions of `Engine.run`: running a training epoch, a
validation epoch, loading a model checkpoint from a file, and running
the test evaluation loop. -/
inductive Event where
  | train_ep (epoch_num : ℕ)
  | validation_ep (epoch_num : ℕ)
  | load_model (filename : String)
  | test_eval (epoch_num : ℕ)
deriving DecidableEq, Repr

/-- Python `Engine.test_epoch` (`engine.py` lines 384-403): first loads the
model from `best_model.pt` via `load_model_from_file`, then evaluates
the test set. -/
def test_epoch_trace (epoch_num : ℕ) : List Event :=
  [Event.load_model "best_model.pt", Event.test_eval epoch_num]

/-- The `for epoch_num in range(self.num_epochs)` loop of `Engine.run`:
`remaining` iterations left, `epoch_num` the current loop variable. -/
def run_loop : ℕ → ℕ → List Event
  | 0, _ => []
  | remaining + 1, epoch_num =>
      Event.train_ep epoch_num :: Event.validation_ep epoch_num ::
        run_loop remaining (epoch_num + 1)

/-- Python `Engine.run` (`engine.py` lines 193-202): loops training then
validation for `epoch_num` in `range(num_epochs)`, then calls
`self.test_epoch(epoch_num)` with the loop variable's final value.
When `num_epochs = 0` the loop body never runs and `epoch_num` is an
unbound name, so Python raises `NameError`. -/
def run (num_epochs : ℕ) : Except String (List Event) :=
  match num_epochs with
  | 0 => .error "NameError: name epoch_num is not defined"
  | k + 1 => .ok (run_loop (k + 1) 0 ++ test_epoch_trace k)

end Engine

namespace Engine

/-- A batch as consumed by the train / validation loops: the labels
(`iter_dict["label"]`, whose first dimension is the batch size), the
model's predicted classes, and the loss `model_forward_out["loss"]`. -/
structure TrainBatch where
  labels : List ℕ
  predictions : List ℕ
  loss : ℚ
deriving DecidableEq, Repr

/-- Modelled from the spec: `sciwing.meters.loss_meter.LossMeter` (not
under `src/`) — accumulates `(loss, batch_size)` records; `get_average`
is the batch-size-weighted average loss. -/
structure LossMeter where
  records : List (ℚ × ℕ)
deriving DecidableEq, Repr

/-- Modelled from the spec: `LossMeter.reset` clears the accumulator. -/
def LossMeter.reset (_m : LossMeter) : LossMeter := ⟨[]⟩

/-- Modelled from the spec: `LossMeter.add_loss` records one batch. -/
def LossMeter.add_loss (m : LossMeter) (loss : ℚ) (batch_size : ℕ) : LossMeter :=
  ⟨m.records ++ [(loss, batch_size)]⟩

/-- Modelled from the spec: `LossMeter.get_average` — weighted average
of the recorded losses (0 on an empty meter). -/
def LossMeter.get_average (m : LossMeter) : ℚ :=
  let total : ℚ := (m.records.map fun r => r.1 * (r.2 : ℚ)).sum
  let count : ℕ := (m.records.map Prod.snd).sum
  if count = 0 then 0 else total / (count : ℚ)

/-- Modelled from the spec: the metric accumulator — per-class
true/false positive/negative counts, derived from the accumulated
(predicted class, true class) pairs; reset per epoch. -/
structure MetricCalc where
  pairs : List (ℕ × ℕ)
deriving DecidableEq, Repr

/-- Modelled from the spec: `reset` clears the accumulated counts. -/
def MetricCalc.reset (_m : MetricCalc) : MetricCalc := ⟨[]⟩

/-- Modelled from the spec: `calc_metric` accumulates one batch of
(predicted class, true class) pairs. -/
def MetricCalc.calc_metric (m : MetricCalc) (predictions labels : List ℕ) :
    MetricCalc :=
  ⟨m.pairs ++ predictions.zip labels⟩

/-- Modelled from the spec: per-class (TP, FP, FN) counts of the
accumulated pairs. -/
def MetricCalc.get_metric (m : MetricCalc) (c : ℕ) : ℕ × ℕ × ℕ :=
  (m.pairs.countP fun pr => decide (pr.1 = c) && decide (pr.2 = c),
   m.pairs.countP fun pr => decide (pr.1 = c) && decide (pr.2 ≠ c),
   m.pairs.countP fun pr => decide (pr.1 ≠ c) && decide (pr.2 = c))

/-- The meter/metric state evolution of `Engine.train_epoch`
(`engine.py` lines 204-256): the loss meter and the metric calculator
are reset before the batch loop, then every batch is fed to
`calc_metric` and its loss added to the meter. -/
def train_epoch (meter : LossMeter) (metric_calc : MetricCalc)
    (batches : List TrainBatch) : LossMeter × MetricCalc :=
  let meter := meter.reset
  let metric_calc := metric_calc.reset
  batches.foldl
    (fun s b => (s.1.add_loss b.loss b.labels.length,
                 s.2.calc_metric b.predictions b.labels))
    (meter, metric_calc)

/-- The meter/metric state evolution of `Engine.validation_epoch`
(`engine.py` lines 302-326): identical resets at the start of the
epoch, then accumulation over the validation batches. -/
def validation_epoch (meter : LossMeter) (metric_calc : MetricCalc)
    (batches : List TrainBatch) : LossMeter × MetricCalc :=
  let meter := meter.reset
  let metric_calc := metric_calc.reset
  batches.foldl
    (fun s b => (s.1.add_loss b.loss b.labels.length,
                 s.2.calc_metric b.predictions b.labels))
    (meter, metric_calc)

theorem run_loop_eq (k : ℕ) : ∀ (n : ℕ),
    run_loop k n = (List.range' n k).flatMap
      (fun i => [Event.train_ep i, Event.validation_ep i]) := by
  induction k with
  | zero => intro n; simp [run_loop]
  | succ m ih =>
      intro n
      rw [List.range'_succ]
      simp [run_loop, ih]

end Engine

/-- C1 (counterexample to the claim as stated): with
`track_for_best = "macro_fscore"` and a best value of `0`, a validation
f-score of `0` — not strictly higher than the best — still writes
`best_model.pt`, because `is_best_higher` compares with `>=`. -/
theorem c1_strict_improvement_counterexample :
    ((Engine.validation_epoch_end Unit Unit .macro_fscore ((0 : ℚ) : Engine.BestVal)
        0 0 0 () ()).1.isSome = true)
    ∧ ¬ ((0 : ℚ) > 0) := by
  constructor
  · rfl
  · decide

/-- C1 (amended): `best_model.pt` is written at the end of a validation
epoch iff the tracked value improves on `best_track_value` — strictly
lower average loss when tracking `loss`, f-score greater than **or
equal to** the best when tracking `macro_fscore` / `micro_fscore` — and
on writing, `best_track_value` is updated to the tracked value; when
nothing is written `best_track_value` is unchanged. -/
theorem c1_best_model_saved_iff (O M : Type) (mode : Engine.TrackMode)
    (best : Engine.BestVal) (e : ℕ) (avg fs : ℚ) (o : O) (m : M) :
    ((Engine.validation_epoch_end O M mode best e avg fs o m).1.isSome = true ↔
      (mode = .loss ∧ (avg : Engine.BestVal) < best) ∨
      ((mode = .macro_fscore ∨ mode = .micro_fscore) ∧ best ≤ (fs : Engine.BestVal)))
    ∧ ((Engine.validation_epoch_end O M mode best e avg fs o m).1.isSome = true →
        (Engine.validation_epoch_end O M mode best e avg fs o m).1 =
          some ("best_model.pt", ⟨e, o, m, avg⟩) ∧
        (Engine.validation_epoch_end O M mode best e avg fs o m).2 =
          (((if mode = .loss then avg else fs) : ℚ) : Engine.BestVal))
    ∧ ((Engine.validation_epoch_end O M mode best e avg fs o m).1.isSome = false →
        (Engine.validation_epoch_end O M mode best e avg fs o m).2 = best) := by
  cases mode
  case loss =>
    by_cases h : ((avg : Engine.BestVal) < best) <;>
      simp [Engine.validation_epoch_end, Engine.is_best_lower,
        Engine.set_best_track_value, h]
  case macro_fscore =>
    by_cases h : (best ≤ (fs : Engine.BestVal)) <;>
      simp [Engine.validation_epoch_end, Engine.is_best_higher,
        Engine.set_best_track_value, h]
  case micro_fscore =>
    by_cases h : (best ≤ (fs : Engine.BestVal)) <;>
      simp [Engine.validation_epoch_end, Engine.is_best_higher,
        Engine.set_best_track_value, h]

/-- C1 witness: tracking loss with initial best `np.inf`, an average
loss of `1` triggers the write and the best value becomes `1`. -/
theorem c1_best_model_saved_iff_witness :
    (Engine.validation_epoch_end Unit Unit .loss ⊤ 3 1 0 () ()).1 =
      some ("best_model.pt", ⟨3, (), (), 1⟩) ∧
    (Engine.validation_epoch_end Unit Unit .loss ⊤ 3 1 0 () ()).2 =
      ((1 : ℚ) : Engine.BestVal) := by
  have h := (c1_best_model_saved_iff Unit Unit .loss ⊤ 3 1 0 () ()).2.1 (by rfl)
  simpa using h


/-- C2: after 0-based training epoch `e`, a checkpoint is written iff
`e + 1` is a multiple of `save_every`; when written, it goes to
`model_epoch_{e+1}.pt` and contains exactly the epoch number, the
optimizer state, the model parameters, and the epoch's average loss. -/
theorem c2_periodic_checkpoint (O M : Type) (save_every e : ℕ) (avg : ℚ)
    (o : O) (m : M) (_hs : 0 < save_every) :
    ((Engine.train_epoch_end_save O M save_every e avg o m).isSome = true ↔
      save_every ∣ (e + 1))
    ∧ (∀ f ck, Engine.train_epoch_end_save O M save_every e avg o m = some (f, ck) →
        f = "model_epoch_" ++ toString (e + 1) ++ ".pt"
        ∧ ck = ⟨e, o, m, avg⟩) := by
  constructor
  · rw [Nat.dvd_iff_mod_eq_zero]
    by_cases h : (e + 1) % save_every = 0 <;>
      simp [Engine.train_epoch_end_save, h]
  · intro f ck hck
    by_cases h : (e + 1) % save_every = 0 <;>
      simp [Engine.train_epoch_end_save, h] at hck
    exact ⟨hck.1.symm, hck.2.symm⟩

/-- C2 witness: with `save_every = 2`, epoch 3 (0-based) writes
`model_epoch_4.pt` with epoch number 3 and the epoch's loss. -/
theorem c2_periodic_checkpoint_witness :
    ("model_epoch_4.pt" : String) = "model_epoch_" ++ toString (3 + 1) ++ ".pt"
    ∧ (⟨3, (), (), 5⟩ : Engine.Checkpoint Unit Unit) = ⟨3, (), (), 5⟩ :=
  (c2_periodic_checkpoint Unit Unit 2 3 5 () () (by decide)).2
    "model_epoch_4.pt" ⟨3, (), (), 5⟩ (by rfl)

/-- C3: for `num_epochs ≥ 1`, `Engine.run` performs, for each epoch
`0 .. num_epochs - 1` in increasing order, a training epoch immediately
followed by a validation epoch on that epoch number, and then exactly
one test epoch, which first loads `best_model.pt` before evaluating. -/
theorem c3_run_trace (num_epochs : ℕ) (h : 1 ≤ num_epochs) :
    Engine.run num_epochs = .ok
      ((List.range num_epochs).flatMap
        (fun i => [Engine.Event.train_ep i, Engine.Event.validation_ep i])
      ++ [Engine.Event.load_model "best_model.pt",
          Engine.Event.test_eval (num_epochs - 1)]) := by
  match num_epochs, h with
  | k + 1, _ =>
      simp [Engine.run, Engine.test_epoch_trace, Engine.run_loop_eq,
        List.range_eq_range']

/-- C3 witness: two epochs give train 0, validation 0, train 1,
validation 1, then the test epoch loading `best_model.pt`. -/
theorem c3_run_trace_witness :
    Engine.run 2 = .ok
      [Engine.Event.train_ep 0, Engine.Event.validation_ep 0,
       Engine.Event.train_ep 1, Engine.Event.validation_ep 1,
       Engine.Event.load_model "best_model.pt", Engine.Event.test_eval 1] := by
  have h := c3_run_trace 2 (by decide)
  simpa [List.range_succ] using h

/-- C6: both `train_epoch` and `validation_epoch` reset the loss meter
and the metric calculator before processing any batch, so the resulting
meter/metric state — hence the reported average loss and metrics — is
the same for any pair of incoming states: it depends only on the
batches of that epoch. -/
theorem c6_epoch_state_reset (m m' : Engine.LossMeter)
    (c c' : Engine.MetricCalc) (bs : List Engine.TrainBatch) :
    Engine.train_epoch m c bs = Engine.train_epoch m' c' bs
    ∧ Engine.validation_epoch m c bs = Engine.validation_epoch m' c' bs
    ∧ (Engine.train_epoch m c bs).1.get_average
        = (Engine.train_epoch m' c' bs).1.get_average
    ∧ (Engine.validation_epoch m c bs).2.get_metric
        = (Engine.validation_epoch m' c' bs).2.get_metric :=
  ⟨rfl, rfl, rfl, rfl⟩

/-- C10: `Engine.run` with `num_epochs = 0` raises `NameError` (the
loop variable `epoch_num` is unbound when `test_epoch` is called)
instead of running the test epoch, while every `num_epochs ≥ 1`
completes normally. -/
theorem c10_run_zero_fails :
    Engine.run 0 = .error "NameError: name epoch_num is not defined"
    ∧ ∀ num_epochs, 1 ≤ num_epochs → (Engine.run num_epochs).isOk = true := by
  refine ⟨rfl, ?_⟩
  intro ne h
  match ne, h with
  | k + 1, _ => rfl

/-- C10 witness: one epoch succeeds. -/
theorem c10_run_zero_fails_witness : (Engine.run 1).isOk = true :=
  c10_run_zero_fails.2 1 (by decide)

namespace Parsect

/-- Modelled from the spec: the `Vocab` class (ordered mapping
token→index; reserved special tokens pad/start/end/unk occupy the first
indices; frequency cutoff at `max_num_words`).  The token at index `i`
is `tokens[i]`. -/
structure Vocab where
  tokens : List String
  pad_token : String
  start_token : String
  end_token : String
  unk_token : String
deriving DecidableEq, Repr

/-- Modelled from the spec: token→index lookup; an out-of-vocabulary
token maps to the unknown token index. -/
def Vocab.idx_from_token (v : Vocab) (t : String) : ℕ :=
  match v.tokens.indexOf? t with
  | some i => i
  | none => v.tokens.indexOf v.unk_token

/-- Modelled from the spec: index→token lookup (`get_token_from_idx`);
an out-of-range index maps to the unknown token. -/
def Vocab.get_token_from_idx (v : Vocab) (i : ℕ) : String :=
  v.tokens.getD i v.unk_token

/-- Modelled from the spec: insertion step of the frequency sort used
when building the vocabulary. -/
def insert_desc (count : String → ℕ) (t : String) : List String → List String
  | [] => [t]
  | u :: us => if count u < count t then t :: u :: us else u :: insert_desc count t us

/-- Modelled from the spec: sort tokens by descending frequency. -/
def sort_by_count_desc (count : String → ℕ) : List String → List String
  | [] => []
  | t :: ts => insert_desc count t (sort_by_count_desc count ts)

/-- Modelled from the spec: `Vocab.build_vocab` — the four reserved
special tokens (pad/start/end/unk) take the first indices, followed by
the corpus tokens by descending frequency, cut off after the top
`max_num_words`. -/
def build_vocab (instances : List (List String)) (max_num_words : ℕ)
    (pad_token start_token end_token unk_token : String) : Vocab :=
  let words := instances.flatten
  let uniq := words.eraseDups
  let sorted := sort_by_count_desc (fun w => words.count w) uniq
  let kept := sorted.take max_num_words
  { tokens := [pad_token, start_token, end_token, unk_token] ++ kept,
    pad_token := pad_token, start_token := start_token,
    end_token := end_token, unk_token := unk_token }

/-- Modelled from the spec: `Numericalizer.numericalize_instance` —
token sequence to id sequence through the vocabulary. -/
def numericalize_instance (v : Vocab) (tokens : List String) : List ℕ :=
  tokens.map v.idx_from_token

/-- Modelled from the spec: `pack_to_length` with
`add_start_end_token=True` — truncate the tokenized text to
`max_length - 2`, wrap it in the start and end markers, and pad with
the pad token up to the fixed length `max_length`. -/
def pack_to_length (tokenized_text : List String) (max_length : ℕ)
    (pad_token start_token end_token : String) : List String :=
  let truncated := tokenized_text.take (max_length - 2)
  let with_markers := start_token :: (truncated ++ [end_token])
  with_markers ++ List.replicate (max_length - with_markers.length) pad_token

/-- Modelled from the spec: `WordTokenizer.tokenize_batch` — splits
each line into whitespace-separated word tokens. -/
def tokenize (lines : List String) : List (List String) :=
  lines.map (fun l => (l.splitOn " ").filter (fun t => t != ""))

/-- The fixed list of section-label categories
(`ParsectDataset.get_label_mapping`, `parsect_dataset.py` lines
217-246). -/
def categories : List String :=
  ["address", "affiliation", "author", "bodyText", "category",
   "construct", "copyright", "email", "equation", "figure",
   "figureCaption", "footnote", "keyword", "listItem", "note",
   "page", "reference", "sectionHeader", "subsectionHeader",
   "subsubsectionHeader", "tableCaption", "table", "title"]

/-- Python `ParsectDataset.get_label_mapping`: each category name maps to
its position in the `categories` list. -/
def get_label_mapping : List (String × ℕ) :=
  categories.enum.map (fun p => (p.2, p.1))

/-- One line of the parsed section-label JSON (`parse_sect` entries):
a file number, the text and its label. -/
structure SectRecord where
  file_no : ℕ
  text : String
  label : String
deriving DecidableEq, Repr

/-- The three allowed dataset types (`parsect_dataset.py` line 91). -/
inductive DatasetType where
  | train
  | valid
  | test
deriving DecidableEq, Repr

/-- Python `ParsectDataset.get_lines_labels` (`parsect_dataset.py` lines
154-206): filter the records by `file_no` — `range(1, 21)` for train,
`range(21, 31)` for valid, `range(31, 41)` for test — then append each
record's text and label positionally.  With `debug` set, the texts and
labels are re-sampled at the externally drawn `random_ints` positions
(`np.random.randint`, an external RNG, is passed in as a parameter). -/
def get_lines_labels (dataset_type : DatasetType)
    (parsect_json : List SectRecord) (debug : Bool) (random_ints : List ℕ) :
    List String × List String :=
  let filtered : List SectRecord :=
    match dataset_type with
    | .train => parsect_json.filter (fun j => decide (j.file_no ∈ List.range' 1 20))
    | .valid => parsect_json.filter (fun j => decide (j.file_no ∈ List.range' 21 10))
    | .test => parsect_json.filter (fun j => decide (j.file_no ∈ List.range' 31 10))
  let pair : List String × List String := filtered.foldl
    (fun acc j => (acc.1 ++ [j.text], acc.2 ++ [j.label])) ([], [])
  if debug then
    (random_ints.map (fun i => pair.1.getD i ""),
     random_ints.map (fun i => pair.2.getD i ""))
  else
    pair

/-- The dataset state after `ParsectDataset.__init__`: tokenized
instances, their labels (positionally paired), the fixed `max_length`,
the vocabulary built during construction, and the fixed label
mapping. -/
structure ParsectDataset where
  instances : List (List String)
  labels : List String
  max_length : ℕ
  vocab : Vocab
  label_mapping : List (String × ℕ)
deriving DecidableEq, Repr

/-- Python `ParsectDataset.__init__` (`parsect_dataset.py` lines 101-119):
reads lines and labels for the dataset type, tokenizes, and builds the
vocabulary exactly once with the four reserved special tokens and the
`max_num_words` frequency cap. -/
def mk_parsect_dataset (records : List SectRecord) (dataset_type : DatasetType)
    (max_num_words max_length : ℕ) : ParsectDataset :=
  let ll := get_lines_labels dataset_type records false []
  let instances := tokenize ll.1
  let vocab := build_vocab instances max_num_words "<PAD>" "<SOS>" "<EOS>" "<UNK>"
  { instances := instances, labels := ll.2, max_length := max_length,
    vocab := vocab, label_mapping := get_label_mapping }

/-- The dictionary returned by `ParsectDataset.__getitem__`
(`parsect_dataset.py` lines 144-150), with its five entries in
insertion order: `tokens`, `len_tokens`, `label`, `instance`,
`raw_instance`. -/
structure ItemDict where
  tokens : List ℕ
  len_tokens : ℕ
  label : ℕ
  instance_str : String
  raw_instance : String
deriving DecidableEq, Repr

/-- The keys of the `__getitem__` dictionary, in insertion order. -/
def itemDictKeys : List String :=
  ["tokens", "len_tokens", "label", "instance", "raw_instance"]

/-- Python tuple unpacking `a, b, c = xs` over the keys of a dictionary:
succeeds only when there are exactly three keys, otherwise raises
`ValueError`. -/
def unpack3 (keys : List String) : Except String (String × String × String) :=
  match keys with
  | [a, b, c] => .ok (a, b, c)
  | _ => .error "ValueError: too many values to unpack (expected 3)"

/-- Python `ParsectDataset.__getitem__` (`parsect_dataset.py` lines
124-152): look up the instance and label at `idx`, record the
pre-padding token count, pack to `max_length` with start/end markers,
numericalize, and return the item dictionary.  `none` models the
`IndexError` / `KeyError` raised on a bad index or unmapped label. -/
def ParsectDataset.get_item (ds : ParsectDataset) (idx : ℕ) : Option ItemDict :=
  match ds.instances[idx]?, ds.labels[idx]? with
  | some inst, some lab =>
    match ds.label_mapping.lookup lab with
    | some label_idx =>
        let len_instance := inst.length
        let padded_instance := pack_to_length inst ds.max_length
          ds.vocab.pad_token ds.vocab.start_token ds.vocab.end_token
        let tokens := numericalize_instance ds.vocab padded_instance
        some { tokens := tokens, len_tokens := len_instance,
               label := label_idx,
               instance_str := String.intercalate " " padded_instance,
               raw_instance := String.intercalate " " inst }
    | none => none
  | _, _ => none

/-- Python `ParsectDataset.get_disp_sentence_from_indices`
(`parsect_dataset.py` lines 254-262): drop the pad indices, map the
rest back to tokens, and join with spaces. -/
def ParsectDataset.get_disp_sentence_from_indices (ds : ParsectDataset)
    (indices : List ℕ) : String :=
  let pad_index := ds.vocab.idx_from_token ds.vocab.pad_token
  String.intercalate " "
    ((indices.filter (fun i => i != pad_index)).map ds.vocab.get_token_from_idx)

/-- Python `ParsectDataset.get_num_classes`. -/
def ParsectDataset.get_num_classes (ds : ParsectDataset) : ℕ :=
  ds.label_mapping.length

/-- Python `ParsectDataset.idx2classname`: the inverse of the label
mapping; `none` models the `KeyError` on an unmapped index. -/
def ParsectDataset.idx2classname (ds : ParsectDataset) (i : ℕ) : Option String :=
  (ds.label_mapping.find? (fun p => p.2 == i)).map Prod.fst

/-- Python `ParsectDataset.get_class_names_from_indices`. -/
def ParsectDataset.get_class_names_from_indices (ds : ParsectDataset)
    (indices : List ℕ) : List (Option String) :=
  indices.map ds.idx2classname

/-- Python `ParsectDataset.get_stats` (`parsect_dataset.py` lines
264-289): for each index it runs
`tokens, labels, len_tokens = self[idx]`, but `__getitem__` returns a
five-key dictionary, so on any non-empty dataset the unpacking raises
`ValueError`; on an empty dataset the loop body never runs and the
(empty) label counts are reported. -/
def ParsectDataset.get_stats (ds : ParsectDataset) :
    Except String (List (ℕ × ℕ)) :=
  if ds.instances.isEmpty then
    .ok []
  else
    match unpack3 itemDictKeys with
    | .error e => .error e
    | .ok _ => .error "TypeError: string indices must be integers"

/-- The dataset operations available after construction. -/
inductive DatasetOp where
  | get_item_op (idx : ℕ)
  | get_disp_sentence_op (indices : List ℕ)
  | get_stats_op
  | get_num_classes_op
  | get_class_names_op (indices : List ℕ)
  | len_op
deriving DecidableEq, Repr

/-- Results of the dataset operations. -/
inductive DatasetResult where
  | item (i : Option ItemDict)
  | sentence (s : String)
  | stats (s : Except String (List (ℕ × ℕ)))
  | num (n : ℕ)
  | names (l : List (Option String))
deriving Repr

/-- State-passing form of the dataset operations: each operation
returns its result together with the dataset state it leaves behind.
None of the methods assigns to any field after `__init__`, so each
returns the state unchanged. -/
def apply_op (ds : ParsectDataset) (op : DatasetOp) :
    DatasetResult × ParsectDataset :=
  match op with
  | .get_item_op idx => (.item (ds.get_item idx), ds)
  | .get_disp_sentence_op indices =>
      (.sentence (ds.get_disp_sentence_from_indices indices), ds)
  | .get_stats_op => (.stats ds.get_stats, ds)
  | .get_num_classes_op => (.num ds.get_num_classes, ds)
  | .get_class_names_op indices =>
      (.names (ds.get_class_names_from_indices indices), ds)
  | .len_op => (.num ds.instances.length, ds)

end Parsect

namespace ParsectInference

/-- The analytics produced by `ParsectInference.run_inference`
(`parsect_inference.py` lines 106-162): per-instance true and predicted
label indices, true and predicted class names, and display sentences. -/
structure OutputAnalytics where
  true_labels_indices : List ℤ
  predicted_labels_indices : List ℤ
  pred_class_names : List String
  true_class_names : List String
  sentences : List String
deriving Repr

/-- Python `ParsectInference.run_inference` (`parsect_inference.py` lines
106-162).  The batch loop opens with
`for tokens, labels, len_tokens in loader`, which unpacks each
collated batch — a dictionary with the five `__getitem__` keys — into
three names, so on any non-empty test dataset it raises `ValueError`
at the first batch; had the batch had exactly three keys, the bound
names would be key strings and `labels.squeeze(1)` would raise.  On an
empty dataset the loop never runs and `torch.cat` of the empty
per-batch list raises. -/
def run_inference (ds : Parsect.ParsectDataset) (_batch_size : ℕ) :
    Except String OutputAnalytics :=
  if ds.instances.isEmpty then
    .error "RuntimeError: torch.cat expected a non-empty list of Tensors"
  else
    match Parsect.unpack3 Parsect.itemDictKeys with
    | .error e => .error e
    | .ok _ => .error "AttributeError: str object has no attribute squeeze"

/-- Python `ParsectInference.get_misclassified_sentences`
(`parsect_inference.py` lines 164-180): select the dataframe row
positions whose `true_labels_indices` is `true_label_idx` and whose
`predicted_labels_indices` is `pred_label_idx`, then read
`output_analytics["sentences"]` at those positions.  `df` carries the
(true index, predicted index) columns row by row. -/
def get_misclassified_sentences (df : List (ℤ × ℤ)) (sentences : List String)
    (true_label_idx pred_label_idx : ℤ) : List String :=
  let instances_idx := (List.range df.length).filter
    (fun i => match df.get? i with
      | some r => decide (r.1 = true_label_idx) && decide (r.2 = pred_label_idx)
      | none => false)
  instances_idx.map (fun i => sentences.getD i "")

end ParsectInference

theorem pack_to_length_length (txt : List String) (ml : ℕ) (p s e : String)
    (h : 2 ≤ ml) : (Parsect.pack_to_length txt ml p s e).length = ml := by
  simp [Parsect.pack_to_length]
  omega

/-- C5: for a valid index, `__getitem__` returns the item dictionary
holding the idx-th tokenized sentence packed to the fixed `max_length`
with start/end markers and numericalized, the label index given by the
label mapping, and the pre-padding token count; the token id sequence
has length exactly `max_length`. -/
theorem c5_get_item_spec (ds : Parsect.ParsectDataset) (idx : ℕ)
    (inst : List String) (lab : String) (lab_idx : ℕ)
    (hinst : ds.instances[idx]? = some inst)
    (hlab : ds.labels[idx]? = some lab)
    (hmap : ds.label_mapping.lookup lab = some lab_idx)
    (hml : 2 ≤ ds.max_length) :
    ds.get_item idx = some
      { tokens := Parsect.numericalize_instance ds.vocab
          (Parsect.pack_to_length inst ds.max_length
            ds.vocab.pad_token ds.vocab.start_token ds.vocab.end_token),
        len_tokens := inst.length,
        label := lab_idx,
        instance_str := String.intercalate " "
          (Parsect.pack_to_length inst ds.max_length
            ds.vocab.pad_token ds.vocab.start_token ds.vocab.end_token),
        raw_instance := String.intercalate " " inst }
    ∧ (Parsect.numericalize_instance ds.vocab
        (Parsect.pack_to_length inst ds.max_length
          ds.vocab.pad_token ds.vocab.start_token ds.vocab.end_token)).length
      = ds.max_length := by
  constructor
  · simp [Parsect.ParsectDataset.get_item, hinst, hlab, hmap]
  · simp [Parsect.numericalize_instance]
    exact pack_to_length_length inst ds.max_length _ _ _ hml

/-- C5 witness: a two-token sentence labelled `title` in a dataset with
`max_length = 5`. -/
theorem c5_get_item_spec_witness :
    (⟨[["hello", "world"]], ["title"], 5,
      ⟨["<PAD>", "<SOS>", "<EOS>", "<UNK>", "hello"],
        "<PAD>", "<SOS>", "<EOS>", "<UNK>"⟩,
      Parsect.get_label_mapping⟩ : Parsect.ParsectDataset).get_item 0 = some
      { tokens := Parsect.numericalize_instance
          ⟨["<PAD>", "<SOS>", "<EOS>", "<UNK>", "hello"],
            "<PAD>", "<SOS>", "<EOS>", "<UNK>"⟩
          (Parsect.pack_to_length ["hello", "world"] 5 "<PAD>" "<SOS>" "<EOS>"),
        len_tokens := 2,
        label := 22,
        instance_str := String.intercalate " "
          (Parsect.pack_to_length ["hello", "world"] 5 "<PAD>" "<SOS>" "<EOS>"),
        raw_instance := String.intercalate " " ["hello", "world"] }
    ∧ (Parsect.numericalize_instance
        ⟨["<PAD>", "<SOS>", "<EOS>", "<UNK>", "hello"],
          "<PAD>", "<SOS>", "<EOS>", "<UNK>"⟩
        (Parsect.pack_to_length ["hello", "world"] 5 "<PAD>" "<SOS>" "<EOS>")).length
      = 5 :=
  c5_get_item_spec _ 0 ["hello", "world"] "title" 22 rfl rfl (by decide) (by decide)

/-- C8: the vocabulary is built exactly once during construction — with
the four reserved special tokens in the leading positions and at most
`max_num_words` further tokens — and every dataset operation available
after construction leaves the vocabulary unchanged. -/
theorem c8_vocab_built_once_immutable :
    (∀ (records : List Parsect.SectRecord) (dtype : Parsect.DatasetType)
        (mnw ml : ℕ),
      (Parsect.mk_parsect_dataset records dtype mnw ml).vocab =
        Parsect.build_vocab
          (Parsect.tokenize (Parsect.get_lines_labels dtype records false []).1)
          mnw "<PAD>" "<SOS>" "<EOS>" "<UNK>"
      ∧ (Parsect.mk_parsect_dataset records dtype mnw ml).vocab.tokens.take 4 =
          ["<PAD>", "<SOS>", "<EOS>", "<UNK>"]
      ∧ (Parsect.mk_parsect_dataset records dtype mnw ml).vocab.tokens.length
          ≤ 4 + mnw)
    ∧ (∀ (ds : Parsect.ParsectDataset) (op : Parsect.DatasetOp),
        (Parsect.apply_op ds op).2.vocab = ds.vocab) := by
  constructor
  · intro records dtype mnw ml
    refine ⟨rfl, rfl, ?_⟩
    simp [Parsect.mk_parsect_dataset, Parsect.build_vocab, List.length_take]
    omega
  · intro ds op
    cases op <;> rfl

theorem get_lines_labels_foldl (l : List Parsect.SectRecord) :
    ∀ (ts ls : List String),
      l.foldl (fun acc j => (acc.1 ++ [j.text], acc.2 ++ [j.label])) (ts, ls) =
        (ts ++ l.map Parsect.SectRecord.text,
         ls ++ l.map Parsect.SectRecord.label) := by
  induction l with
  | nil => intro ts ls; simp
  | cons j l ih => intro ts ls; simp [ih]

/-- C9: with debug off, the train split keeps exactly the records with
`file_no` in 1..20, valid those in 21..30, test those in 31..40 — each
in input order with labels paired positionally to texts — and a record
selected by one split is selected by no other. -/
theorem c9_split_disjointness :
    (∀ (records : List Parsect.SectRecord) (rints : List ℕ),
      Parsect.get_lines_labels .train records false rints =
        ((records.filter (fun j => decide (1 ≤ j.file_no ∧ j.file_no ≤ 20))).map
            Parsect.SectRecord.text,
         (records.filter (fun j => decide (1 ≤ j.file_no ∧ j.file_no ≤ 20))).map
            Parsect.SectRecord.label)
      ∧ Parsect.get_lines_labels .valid records false rints =
        ((records.filter (fun j => decide (21 ≤ j.file_no ∧ j.file_no ≤ 30))).map
            Parsect.SectRecord.text,
         (records.filter (fun j => decide (21 ≤ j.file_no ∧ j.file_no ≤ 30))).map
            Parsect.SectRecord.label)
      ∧ Parsect.get_lines_labels .test records false rints =
        ((records.filter (fun j => decide (31 ≤ j.file_no ∧ j.file_no ≤ 40))).map
            Parsect.SectRecord.text,
         (records.filter (fun j => decide (31 ≤ j.file_no ∧ j.file_no ≤ 40))).map
            Parsect.SectRecord.label))
    ∧ (∀ (records : List Parsect.SectRecord) (j : Parsect.SectRecord),
        (j ∈ records.filter (fun j => decide (1 ≤ j.file_no ∧ j.file_no ≤ 20)) →
          j ∉ records.filter (fun j => decide (21 ≤ j.file_no ∧ j.file_no ≤ 30))
          ∧ j ∉ records.filter (fun j => decide (31 ≤ j.file_no ∧ j.file_no ≤ 40)))
        ∧ (j ∈ records.filter (fun j => decide (21 ≤ j.file_no ∧ j.file_no ≤ 30)) →
          j ∉ records.filter (fun j => decide (31 ≤ j.file_no ∧ j.file_no ≤ 40)))) := by
  constructor
  · intro records rints
    have htr : records.filter (fun j => decide (j.file_no ∈ List.range' 1 20)) =
        records.filter (fun j => decide (1 ≤ j.file_no ∧ j.file_no ≤ 20)) := by
      apply List.filter_congr
      intro j _
      simp only [decide_eq_decide, List.mem_range'_1]
      omega
    have hva : records.filter (fun j => decide (j.file_no ∈ List.range' 21 10)) =
        records.filter (fun j => decide (21 ≤ j.file_no ∧ j.file_no ≤ 30)) := by
      apply List.filter_congr
      intro j _
      simp only [decide_eq_decide, List.mem_range'_1]
      omega
    have hte : records.filter (fun j => decide (j.file_no ∈ List.range' 31 10)) =
        records.filter (fun j => decide (31 ≤ j.file_no ∧ j.file_no ≤ 40)) := by
      apply List.filter_congr
      intro j _
      simp only [decide_eq_decide, List.mem_range'_1]
      omega
    refine ⟨?_, ?_, ?_⟩
    · have e1 : Parsect.get_lines_labels .train records false rints =
          ((records.filter (fun j => decide (j.file_no ∈ List.range' 1 20))).map
              Parsect.SectRecord.text,
           (records.filter (fun j => decide (j.file_no ∈ List.range' 1 20))).map
              Parsect.SectRecord.label) := by
        simp [Parsect.get_lines_labels, get_lines_labels_foldl]
      rw [e1, htr]
    · have e2 : Parsect.get_lines_labels .valid records false rints =
          ((records.filter (fun j => decide (j.file_no ∈ List.range' 21 10))).map
              Parsect.SectRecord.text,
           (records.filter (fun j => decide (j.file_no ∈ List.range' 21 10))).map
              Parsect.SectRecord.label) := by
        simp [Parsect.get_lines_labels, get_lines_labels_foldl]
      rw [e2, hva]
    · have e3 : Parsect.get_lines_labels .test records false rints =
          ((records.filter (fun j => decide (j.file_no ∈ List.range' 31 10))).map
              Parsect.SectRecord.text,
           (records.filter (fun j => decide (j.file_no ∈ List.range' 31 10))).map
              Parsect.SectRecord.label) := by
        simp [Parsect.get_lines_labels, get_lines_labels_foldl]
      rw [e3, hte]
  · intro records j
    simp only [List.mem_filter, decide_eq_true_eq, not_and]
    constructor
    · rintro ⟨hj, hn⟩
      constructor
      · intro hj2
        omega
      · intro hj2
        omega
    · rintro ⟨hj, hn⟩
      intro hj2
      omega

/-- C4 (code bug): on any non-empty test dataset, `run_inference`
raises `ValueError` at its first batch — the loop header unpacks each
batch into `(tokens, labels, len_tokens)` but `__getitem__` items are
five-key dictionaries — so no analytics dictionary is ever returned. -/
theorem c4_run_inference_raises (ds : Parsect.ParsectDataset)
    (batch_size : ℕ) (h : ds.instances ≠ []) :
    ParsectInference.run_inference ds batch_size =
      .error "ValueError: too many values to unpack (expected 3)" := by
  have hne : ds.instances.isEmpty = false := by
    simp [List.isEmpty_iff, h]
  simp [ParsectInference.run_inference, hne, Parsect.unpack3, Parsect.itemDictKeys]

/-- C4 witness: a one-instance test dataset crashes `run_inference`. -/
theorem c4_run_inference_raises_witness :
    ParsectInference.run_inference
      ⟨[["a"]], ["title"], 5,
        ⟨["<PAD>", "<SOS>", "<EOS>", "<UNK>"], "<PAD>", "<SOS>", "<EOS>", "<UNK>"⟩,
        Parsect.get_label_mapping⟩ 1 =
      .error "ValueError: too many values to unpack (expected 3)" :=
  c4_run_inference_raises _ 1 (by decide)

/-- C7: `get_misclassified_sentences` returns exactly the sentences of
the rows whose true label index is `true_label_idx` and whose predicted
label index is `pred_label_idx`, in dataframe (dataset) order. -/
theorem c7_misclassified_sentences (df : List (ℤ × ℤ))
    (sentences : List String) (t p : ℤ) (h : df.length = sentences.length) :
    ParsectInference.get_misclassified_sentences df sentences t p =
      ((df.zip sentences).filter
        (fun x => decide (x.1.1 = t) && decide (x.1.2 = p))).map Prod.snd := by
  induction df generalizing sentences with
  | nil => simp [ParsectInference.get_misclassified_sentences]
  | cons r df ih =>
      cases sentences with
      | nil => simp at h
      | cons s ss =>
          have h' : df.length = ss.length := by simpa using h
          have hrec := ih ss h'
          simp only [ParsectInference.get_misclassified_sentences] at hrec ⊢
          rw [List.length_cons, List.range_succ_eq_map, List.filter_cons]
          by_cases hr : (decide (r.1 = t) && decide (r.2 = p)) = true
          · rw [if_pos (by simpa using hr), List.map_cons, List.filter_map,
              List.map_map]
            simp only [Function.comp_def, Nat.succ_eq_add_one,
              List.get?_cons_succ, List.getD_cons_succ, List.getD_cons_zero]
            rw [List.zip_cons_cons, List.filter_cons, if_pos hr, List.map_cons]
            exact congrArg (List.cons s) hrec
          · rw [if_neg (by simpa using hr), List.filter_map, List.map_map]
            simp only [Function.comp_def, Nat.succ_eq_add_one,
              List.get?_cons_succ, List.getD_cons_succ]
            rw [List.zip_cons_cons, List.filter_cons, if_neg hr]
            exact hrec

/-- C7 witness: two rows match (1, 2) out of four; their sentences come
back in order. -/
theorem c7_misclassified_sentences_witness :
    ParsectInference.get_misclassified_sentences
      [(1, 2), (0, 0), (1, 2), (1, 1)] ["s0", "s1", "s2", "s3"] 1 2 =
      (([((1 : ℤ), (2 : ℤ)), (0, 0), (1, 2), (1, 1)].zip
          ["s0", "s1", "s2", "s3"]).filter
        (fun x => decide (x.1.1 = 1) && decide (x.1.2 = 2))).map Prod.snd :=
  c7_misclassified_sentences [(1, 2), (0, 0), (1, 2), (1, 1)]
    ["s0", "s1", "s2", "s3"] 1 2 (by decide)

/-- C9 witness: a record with `file_no = 5` selected by the train split
is selected by neither the valid nor the test split. -/
theorem c9_split_disjointness_witness :
    (⟨5, "a", "x"⟩ : Parsect.SectRecord) ∉
        ([⟨5, "a", "x"⟩] : List Parsect.SectRecord).filter
          (fun j => decide (21 ≤ j.file_no ∧ j.file_no ≤ 30))
    ∧ (⟨5, "a", "x"⟩ : Parsect.SectRecord) ∉
        ([⟨5, "a", "x"⟩] : List Parsect.SectRecord).filter
          (fun j => decide (31 ≤ j.file_no ∧ j.file_no ≤ 40)) :=
  (c9_split_disjointness.2 [⟨5, "a", "x"⟩] ⟨5, "a", "x"⟩).1 (by decide)
